import Mathlib

/-!
Shallow embedding of the obstacle/level progression engine of
`src/Obstacles.tsx` (the synthrun repository), together with proofs of the
specification claims about it.

Conventions of the embedding:
* JS `number` values that the engine compares and adds linearly (distances,
  progress fractions, speeds, positions) are modelled as `ℚ`; all constants
  involved (660, 55, 5, 2, 3, 1500, 1.5, 0.5, 2.4, ...) are dyadic, so the
  JS float arithmetic used by the engine on these paths is exact and agrees
  with `ℚ`.
* `Math.random()` draws are threaded explicitly: every tick receives a
  `Rand` record holding the (at most three) draws a single tick can consume,
  each assumed to lie in `[0, 1)`.
* The source mutates a spread copy (`const newState = { ...state }`) of its
  `state` argument.  The embedding makes this explicit with a two-slot
  `Heap` (`orig` = the caller object, `copy` = the function-local spread
  copy); every assignment in the source is transcribed as a write to the
  `copy` slot, so that non-mutation of the argument is a provable statement
  rather than an artifact of purity.
* The obstacle cubes (`THREE.Mesh` with `userData`) are modelled as `Marker`
  records; JS object identity, which the updater relies on for per-cube
  `passed` flags, is modelled by an `id` field that the simulation never
  changes (spawn helpers leave it at its default, it plays no role there).
-/

namespace Synthrun

/-- Phase of a sub-level: `phase: 'normal' | 'funnel'` in the source. -/
inductive Phase where
  | normal : Phase
  | funnel : Phase
  deriving DecidableEq, Repr

/-- The `ObstacleState` interface of `src/Obstacles.tsx`. -/
structure ObstacleState where
  level : ℤ
  phase : Phase
  phaseStartDistance : ℚ
  nextSpawnDistance : ℚ
  distance : ℚ
  funnelProgress : ℚ
  majorLevel : ℤ
  level2Distance : ℚ
  deriving DecidableEq, Repr

/-- `LEVEL_COLORS` palette (6 entries, red → white). -/
def LEVEL_COLORS : List ℕ :=
  [0xff2244, 0xff6600, 0xffff00, 0x00ff00, 0x0088ff, 0xffffff]

/-- `LEVEL_DISTANCE = 660`: normal-phase distance before the funnel. -/
def LEVEL_DISTANCE : ℚ := 660

/-- `FUNNEL_DISTANCE = 55`: distance of the funnel pattern. -/
def FUNNEL_DISTANCE : ℚ := 55

/-- `SPAWN_INTERVAL = 5`: distance between random obstacle spawns. -/
def SPAWN_INTERVAL : ℚ := 5

/-- `FUNNEL_SPAWN_INTERVAL = 2`: distance between funnel wall spawns. -/
def FUNNEL_SPAWN_INTERVAL : ℚ := 2

/-- `LEVEL2_LOW_Y = 1.5`: low corridor obstacle row. -/
def LEVEL2_LOW_Y : ℚ := 1.5

/-- `LEVEL2_HIGH_Y = 5.0`: high corridor obstacle row. -/
def LEVEL2_HIGH_Y : ℚ := 5.0

/-- `LEVEL2_SPAWN_INTERVAL = 3`. -/
def LEVEL2_SPAWN_INTERVAL : ℚ := 3

/-- `LEVEL2_DISTANCE = 1500`: world units before the level-2 funnel. -/
def LEVEL2_DISTANCE : ℚ := 1500

/-- `LEVEL2_FUNNEL_DISTANCE = 55`. -/
def LEVEL2_FUNNEL_DISTANCE : ℚ := 55

/-- `LEVEL2_FUNNEL_SPAWN_INTERVAL = 1.5`. -/
def LEVEL2_FUNNEL_SPAWN_INTERVAL : ℚ := 1.5

/-- `createObstacleState`: the initial state (the `_startTime` argument is
unused by the source as well). -/
def createObstacleState (_startTime : ℚ) : ObstacleState :=
  { level := 1
    phase := Phase.normal
    phaseStartDistance := 0
    nextSpawnDistance := 15
    distance := 0
    funnelProgress := 0
    majorLevel := 1
    level2Distance := 0 }

/-- `getLevel1Progress`: progress (0 → 1) through major level 1, combining the
completed sub-levels with the fractional progress of the current phase. -/
def getLevel1Progress (state : ObstacleState) : ℚ :=
  if state.majorLevel ≠ 1 then 1
  else
    let phaseDistance := state.distance - state.phaseStartDistance
    let totalPhaseDistance :=
      if state.phase = Phase.normal then LEVEL_DISTANCE else FUNNEL_DISTANCE
    let phaseProgress := min 1 (phaseDistance / totalPhaseDistance)
    min 1 ((((state.level : ℚ) - 1) + phaseProgress) / 6)

/-- `getLevelColor`: palette lookup clamped to the final entry. -/
def getLevelColor (level : ℤ) : ℕ :=
  LEVEL_COLORS.getD (min (level - 1) ((LEVEL_COLORS.length : ℤ) - 1)).toNat 0

/-- `getLevelSpeed`: base speed `min(3.0, 0.5 + (level - 1) * 0.3)`. -/
def getLevelSpeed (level : ℤ) : ℚ :=
  min 3.0 (0.5 + ((level : ℚ) - 1) * 0.3)

/-- Gap half-width used by `spawnFunnelWalls` and `spawnLevel2FunnelWalls`
(the expression `FULL_WIDTH - progress * (FULL_WIDTH - MIN_GAP / 2)` is
duplicated verbatim in both source functions; it is named once here). -/
def gapHalf (progress : ℚ) : ℚ :=
  let FULL_WIDTH : ℚ := 8
  let MIN_GAP : ℚ := 2.4
  FULL_WIDTH - progress * (FULL_WIDTH - MIN_GAP / 2)

/-- `OBSTACLE_GROUND_Y = 0.5`: ground-level obstacle center Y. -/
def OBSTACLE_GROUND_Y : ℚ := 0.5

/-- `OBSTACLE_HIGH_Y = 3.0`: high obstacle center Y (jump height). -/
def OBSTACLE_HIGH_Y : ℚ := 3.0

/-- An obstacle cube: position, color and the `userData` flags of the source
mesh.  The `id` field models JS object identity (the source tracks per-cube
state through the mesh object itself); the engine never writes it. -/
structure Marker where
  id : ℕ := 0
  x : ℚ
  y : ℚ
  z : ℚ
  color : ℕ
  passed : Bool
  high : Bool
  deriving DecidableEq, Repr

/-- `createObstacle`: a fresh cube at depth `-40`, `passed = false`, with
`y` given by `yOverride` when present, else by the ground/high constant. -/
def createObstacle (x : ℚ) (color : ℕ) (high : Bool := false)
    (yOverride : Option ℚ := none) : Marker :=
  { x := x
    y := match yOverride with
      | some y => y
      | none => if high then OBSTACLE_HIGH_Y else OBSTACLE_GROUND_Y
    z := -40
    color := color
    passed := false
    high := high }

/-- The successive values of the loop variable of
`for (let x = -FULL_WIDTH; x <= FULL_WIDTH; x += cubeSpacing)` with
`FULL_WIDTH = 8` and `cubeSpacing = 1.5`: the iterations are
`x = -8 + 1.5 * k` for `k = 0, ..., 10` (all exact in JS doubles), i.e.
`-8, -6.5, -5, -3.5, -2, -0.5, 1, 2.5, 4, 5.5, 7`; the 12th value `8.5`
fails the `x <= 8` test, so `8` itself is never a candidate. -/
def wallCandidates : List ℚ :=
  (List.range 11).map (fun (k : ℕ) => -8 + 1.5 * (k : ℚ))

/-- `spawnFunnelWalls`: wall cubes at every candidate lateral position that
lies strictly outside the central gap of half-width `gapHalf progress`. -/
def spawnFunnelWalls (progress : ℚ) (color : ℕ) : List Marker :=
  (wallCandidates.filter
      (fun x => decide (x < -(gapHalf progress) ∨ gapHalf progress < x))).map
    (fun x => createObstacle x color)

/-- `spawnLevel2FunnelWalls`: the same wall pattern duplicated at the two
corridor rows (`LEVEL2_LOW_Y` then `LEVEL2_HIGH_Y` per lateral slot). -/
def spawnLevel2FunnelWalls (progress : ℚ) (color : ℕ) : List Marker :=
  (wallCandidates.filter
      (fun x => decide (x < -(gapHalf progress) ∨ gapHalf progress < x))).flatMap
    (fun x =>
      [createObstacle x color false (some LEVEL2_LOW_Y),
       createObstacle x color false (some LEVEL2_HIGH_Y)])

/-- The `Math.random()` draws one tick can consume, in order of use inside a
single branch (at most three: lateral position, row/jitter, color). -/
structure Rand where
  a : ℚ
  b : ℚ
  c : ℚ
  deriving DecidableEq, Repr

/-- Every `Math.random()` draw lies in `[0, 1)`. -/
def randOk (r : Rand) : Prop :=
  0 ≤ r.a ∧ r.a < 1 ∧ 0 ≤ r.b ∧ r.b < 1 ∧ 0 ≤ r.c ∧ r.c < 1

/-- The all-zero draw (a legal value of `Math.random()`). -/
def rand0 : Rand := ⟨0, 0, 0⟩

/-- `randomColor` of `spawnLevel2Obstacles`:
`LEVEL_COLORS[Math.floor(r * LEVEL_COLORS.length)]`. -/
def randomColor (r : ℚ) : ℕ :=
  LEVEL_COLORS.getD (⌊r * (LEVEL_COLORS.length : ℚ)⌋).toNat 0

/-- Two-slot heap making the aliasing of the source explicit: `orig` is the
`state` object passed by the caller, `copy` the function-local
`const newState = { ...state }`.  Every assignment in the source body is
transcribed as a write to the `copy` slot. -/
structure Heap where
  orig : ObstacleState
  copy : ObstacleState

/-- `spawnLevel2Obstacles` (two-row corridor, major level 2).  Returns the
pushed obstacles, the final heap, and `newSpeed` (always `2.0` here). -/
def spawnLevel2H (state : ObstacleState) (distanceDelta : ℚ) (r : Rand) :
    List Marker × Heap × ℚ :=
  let h : Heap := ⟨state, state⟩
  let h := { h with copy := { h.copy with distance := state.distance + distanceDelta } }
  let h := { h with copy := { h.copy with level2Distance := state.level2Distance + distanceDelta } }
  if state.phase = Phase.normal then
    if LEVEL2_DISTANCE ≤ h.copy.level2Distance then
      let h := { h with copy := { h.copy with phase := Phase.funnel } }
      let h := { h with copy := { h.copy with phaseStartDistance := h.copy.distance } }
      let h := { h with copy := { h.copy with funnelProgress := 0 } }
      let h := { h with copy := { h.copy with nextSpawnDistance := h.copy.distance } }
      ([], h, 2.0)
    else if state.nextSpawnDistance ≤ h.copy.distance then
      let x := (r.a - 0.5) * 16
      let yRow := if r.b < 0.5 then LEVEL2_LOW_Y else LEVEL2_HIGH_Y
      let obstacles := [createObstacle x (randomColor r.c) false (some yRow)]
      let h := { h with copy := { h.copy with nextSpawnDistance := h.copy.distance + LEVEL2_SPAWN_INTERVAL } }
      (obstacles, h, 2.0)
    else ([], h, 2.0)
  else
    let phaseDistance := h.copy.distance - state.phaseStartDistance
    let h := { h with copy := { h.copy with funnelProgress := phaseDistance / LEVEL2_FUNNEL_DISTANCE } }
    if LEVEL2_FUNNEL_DISTANCE ≤ phaseDistance then
      let h := { h with copy := { h.copy with majorLevel := 3 } }
      ([], h, 2.0)
    else if state.nextSpawnDistance ≤ h.copy.distance then
      let obstacles := spawnLevel2FunnelWalls h.copy.funnelProgress (randomColor r.a)
      let h := { h with copy := { h.copy with nextSpawnDistance := h.copy.distance + LEVEL2_FUNNEL_SPAWN_INTERVAL } }
      (obstacles, h, 2.0)
    else ([], h, 2.0)

/-- The major-level-1 body of `spawnObstacles` (everything after the
`state.majorLevel === 2` dispatch). -/
def spawnLevel1H (state : ObstacleState) (distanceDelta currentSpeed : ℚ)
    (r : Rand) : List Marker × Heap × ℚ :=
  let h : Heap := ⟨state, state⟩
  let newSpeed := currentSpeed
  let h := { h with copy := { h.copy with distance := state.distance + distanceDelta } }
  let phaseDistance := h.copy.distance - state.phaseStartDistance
  let color := getLevelColor state.level
  if state.phase = Phase.normal then
    if LEVEL_DISTANCE ≤ phaseDistance then
      let h := { h with copy := { h.copy with phase := Phase.funnel } }
      let h := { h with copy := { h.copy with phaseStartDistance := h.copy.distance } }
      let h := { h with copy := { h.copy with funnelProgress := 0 } }
      let h := { h with copy := { h.copy with nextSpawnDistance := h.copy.distance } }
      ([], h, newSpeed)
    else if state.nextSpawnDistance ≤ h.copy.distance then
      let x := (r.a - 0.5) * 16
      let obstacles := [createObstacle x color]
      let h := { h with copy := { h.copy with nextSpawnDistance := h.copy.distance + SPAWN_INTERVAL + r.b * SPAWN_INTERVAL } }
      let newSpeed := min (getLevelSpeed state.level + 0.5) (currentSpeed + 0.01)
      (obstacles, h, newSpeed)
    else ([], h, newSpeed)
  else
    let h := { h with copy := { h.copy with funnelProgress := phaseDistance / FUNNEL_DISTANCE } }
    if FUNNEL_DISTANCE ≤ phaseDistance then
      let h := { h with copy := { h.copy with level := state.level + 1 } }
      let h := { h with copy := { h.copy with phase := Phase.normal } }
      let h := { h with copy := { h.copy with phaseStartDistance := h.copy.distance } }
      let h := { h with copy := { h.copy with funnelProgress := 0 } }
      let h := { h with copy := { h.copy with nextSpawnDistance := h.copy.distance + SPAWN_INTERVAL } }
      let newSpeed := getLevelSpeed h.copy.level
      if 6 < h.copy.level then
        let h := { h with copy := { h.copy with majorLevel := 2 } }
        let h := { h with copy := { h.copy with level2Distance := 0 } }
        let h := { h with copy := { h.copy with phase := Phase.normal } }
        let h := { h with copy := { h.copy with phaseStartDistance := h.copy.distance } }
        let h := { h with copy := { h.copy with nextSpawnDistance := h.copy.distance + LEVEL2_SPAWN_INTERVAL } }
        let h := { h with copy := { h.copy with funnelProgress := 0 } }
        ([], h, 2.0)
      else ([], h, newSpeed)
    else if state.nextSpawnDistance ≤ h.copy.distance then
      let obstacles := spawnFunnelWalls h.copy.funnelProgress color
      let h := { h with copy := { h.copy with nextSpawnDistance := h.copy.distance + FUNNEL_SPAWN_INTERVAL } }
      (obstacles, h, newSpeed)
    else ([], h, newSpeed)

/-- `spawnObstacles`, heap form: integrates distance
(`distanceDelta = delta * currentSpeed * 15`) and dispatches on
`state.majorLevel === 2` to the level-2 corridor logic, otherwise runs the
level-1 logic. -/
def spawnObstaclesH (state : ObstacleState) (delta currentSpeed : ℚ)
    (r : Rand) : List Marker × Heap × ℚ :=
  let distanceDelta := delta * currentSpeed * 15
  if state.majorLevel = 2 then spawnLevel2H state distanceDelta r
  else spawnLevel1H state distanceDelta currentSpeed r

/-- `spawnObstacles` as the caller sees it: the spawned obstacles, the fresh
`newState` (the `copy` slot of the final heap) and the new speed. -/
def spawnObstacles (state : ObstacleState) (delta currentSpeed : ℚ)
    (r : Rand) : List Marker × ObstacleState × ℚ :=
  let res := spawnObstaclesH state delta currentSpeed r
  (res.1, res.2.1.copy, res.2.2)

/-- Per-tick inputs of `updateObstacles`: ship position, wall-clock delta and
current speed. -/
structure TickIn where
  shipX : ℚ
  shipY : ℚ
  delta : ℚ
  speed : ℚ
  deriving DecidableEq, Repr

/-- The body of the `updateObstacles` loop for one cube: advance the depth,
score on first crossing of the scoring plane (`z > 4`), test the collision
band, and cull past the camera (`z > 10`).  Returns the surviving cube (if
not culled), the score events emitted through `onScore` (marker id paired
with the score delta), and the collision flag of this cube. -/
def stepMarker (t : TickIn) (m : Marker) : Option Marker × List (ℕ × ℕ) × Bool :=
  let z := m.z + t.delta * t.speed * 15
  let events : List (ℕ × ℕ) :=
    if m.passed = false ∧ 4 < z then [(m.id, if m.high then 20 else 10)] else []
  let passed : Bool := if m.passed = false ∧ 4 < z then true else m.passed
  let collided : Bool :=
    decide (2 < z ∧ z < 4 ∧ |m.x - t.shipX| < 0.8 ∧ |m.y - t.shipY| < 1.2)
  let survivor : Option Marker :=
    if 10 < z then none else some { m with z := z, passed := passed }
  (survivor, events, collided)

/-- `updateObstacles`: one tick over the whole cube list.  The source
iterates from the last index down to 0 (to allow splicing); accordingly the
tail of the list is processed first, and its score events precede those of
the head.  Returns the surviving cubes (in their original order), the score
events in emission order, and whether any cube collided. -/
def updateObstacles (cubes : List Marker) (t : TickIn) :
    List Marker × List (ℕ × ℕ) × Bool :=
  match cubes with
  | [] => ([], [], false)
  | m :: rest =>
    let restRes := updateObstacles rest t
    let mRes := stepMarker t m
    (mRes.1.toList ++ restRes.1, restRes.2.1 ++ mRes.2.1, restRes.2.2 || mRes.2.2)

/-- Iterated `updateObstacles` over a list of ticks, collecting all score
events in order. -/
def runTicks (cubes : List Marker) : List TickIn → List Marker × List (ℕ × ℕ)
  | [] => (cubes, [])
  | t :: ts =>
    let r1 := updateObstacles cubes t
    let rest := runTicks r1.1 ts
    (rest.1, r1.2.1 ++ rest.2)

/-- The trajectory of one cube on its own through a list of ticks: the score
events it emits until it is culled. -/
def runMarker (m : Marker) : List TickIn → List (ℕ × ℕ)
  | [] => []
  | t :: ts =>
    match stepMarker t m with
    | (none, events, _) => events
    | (some m1, events, _) => events ++ runMarker m1 ts

/-- Whether some tick of the sequence advances the cube past the scoring
plane (`z > 4`) while the cube is still live.  (Culling requires `z > 10`,
which already implies the crossing, so a cube is never culled before its
crossing tick.) -/
def crossesScoringPlane (m : Marker) : List TickIn → Bool
  | [] => false
  | t :: ts =>
    let z := m.z + t.delta * t.speed * 15
    if 4 < z then true else crossesScoringPlane { m with z := z } ts

/-- The score events belonging to the marker with identity `i`. -/
def eventsFor (i : ℕ) (events : List (ℕ × ℕ)) : List (ℕ × ℕ) :=
  events.filter (fun e => e.1 == i)

/-- States reachable from the initial state by `spawnObstacles` ticks with
non-negative `deltaTime` and speed (and `Math.random()` draws in `[0,1)`). -/
inductive Reach : ObstacleState → Prop
  | init (startTime : ℚ) : Reach (createObstacleState startTime)
  | step (s : ObstacleState) (delta speed : ℚ) (r : Rand) :
      Reach s → 0 ≤ delta → 0 ≤ speed → randOk r →
      Reach (spawnObstacles s delta speed r).2.1

/-- Inductive invariant carried along `Reach`. -/
def StateInv (s : ObstacleState) : Prop :=
  s.phaseStartDistance ≤ s.distance ∧ 1 ≤ s.level ∧
    (s.majorLevel ≠ 3 → 0 ≤ s.funnelProgress ∧ s.funnelProgress ≤ 1)

/-- One `spawnObstacles` tick with (deltaTime, speed) packed as a pair and
all random draws 0, keeping only the state. -/
def tickF (s : ObstacleState) (p : ℚ × ℚ) : ObstacleState :=
  (spawnObstacles s p.1 p.2 rand0).2.1

/-- A concrete schedule of (deltaTime, speed) pairs driving the initial state
through all six sub-levels, into the level-2 corridor, and through the
level-2 funnel with a final overshooting tick (distance delta 110 > 55). -/
def cexTicks : List (ℚ × ℚ) :=
  [(44, 1), (11/3, 1), (44, 1), (11/3, 1), (44, 1), (11/3, 1),
   (44, 1), (11/3, 1), (44, 1), (11/3, 1), (44, 1), (11/3, 1),
   (100, 1), (22/3, 1)]

/-- The state reached by running `cexTicks` from the initial state. -/
def cexState : ObstacleState := cexTicks.foldl tickF (createObstacleState 0)

/-! ### Branch characterizations of the spawner

One lemma per branch of the source, each giving the full result of the tick
on that branch. -/

theorem spawnObstaclesH_eq_level2 (s : ObstacleState) (delta speed : ℚ)
    (r : Rand) (h : s.majorLevel = 2) :
    spawnObstaclesH s delta speed r = spawnLevel2H s (delta * speed * 15) r := by
  simp only [spawnObstaclesH, if_pos h]

theorem spawnObstaclesH_eq_level1 (s : ObstacleState) (delta speed : ℚ)
    (r : Rand) (h : s.majorLevel ≠ 2) :
    spawnObstaclesH s delta speed r =
      spawnLevel1H s (delta * speed * 15) speed r := by
  simp only [spawnObstaclesH, if_neg h]

theorem spawnLevel1H_normal_toFunnel (s : ObstacleState) (dd speed : ℚ)
    (r : Rand) (hph : s.phase = Phase.normal)
    (hpd : LEVEL_DISTANCE ≤ s.distance + dd - s.phaseStartDistance) :
    spawnLevel1H s dd speed r =
      ([], ⟨s, { s with
        phase := Phase.funnel
        phaseStartDistance := s.distance + dd
        nextSpawnDistance := s.distance + dd
        distance := s.distance + dd
        funnelProgress := 0 }⟩, speed) := by
  simp only [spawnLevel1H, if_pos hph, if_pos hpd]

theorem spawnLevel1H_normal_spawn (s : ObstacleState) (dd speed : ℚ)
    (r : Rand) (hph : s.phase = Phase.normal)
    (hpd : ¬ LEVEL_DISTANCE ≤ s.distance + dd - s.phaseStartDistance)
    (hns : s.nextSpawnDistance ≤ s.distance + dd) :
    spawnLevel1H s dd speed r =
      ([createObstacle ((r.a - 0.5) * 16) (getLevelColor s.level)],
       ⟨s, { s with
        distance := s.distance + dd
        nextSpawnDistance := s.distance + dd + SPAWN_INTERVAL + r.b * SPAWN_INTERVAL }⟩,
       min (getLevelSpeed s.level + 0.5) (speed + 0.01)) := by
  simp only [spawnLevel1H, if_pos hph, if_neg hpd, if_pos hns]

theorem spawnLevel1H_normal_idle (s : ObstacleState) (dd speed : ℚ)
    (r : Rand) (hph : s.phase = Phase.normal)
    (hpd : ¬ LEVEL_DISTANCE ≤ s.distance + dd - s.phaseStartDistance)
    (hns : ¬ s.nextSpawnDistance ≤ s.distance + dd) :
    spawnLevel1H s dd speed r =
      ([], ⟨s, { s with distance := s.distance + dd }⟩, speed) := by
  simp only [spawnLevel1H, if_pos hph, if_neg hpd, if_neg hns]

theorem spawnLevel1H_funnel_levelUp (s : ObstacleState) (dd speed : ℚ)
    (r : Rand) (hph : s.phase = Phase.funnel)
    (hpd : FUNNEL_DISTANCE ≤ s.distance + dd - s.phaseStartDistance)
    (hl : ¬ 6 < s.level + 1) :
    spawnLevel1H s dd speed r =
      ([], ⟨s, { s with
        level := s.level + 1
        phase := Phase.normal
        phaseStartDistance := s.distance + dd
        nextSpawnDistance := s.distance + dd + SPAWN_INTERVAL
        distance := s.distance + dd
        funnelProgress := 0 }⟩, getLevelSpeed (s.level + 1)) := by
  have hph' : ¬ s.phase = Phase.normal := by simp [hph]
  simp only [spawnLevel1H, if_neg hph', if_pos hpd, if_neg hl]

theorem spawnLevel1H_funnel_levelUp_major (s : ObstacleState) (dd speed : ℚ)
    (r : Rand) (hph : s.phase = Phase.funnel)
    (hpd : FUNNEL_DISTANCE ≤ s.distance + dd - s.phaseStartDistance)
    (hl : 6 < s.level + 1) :
    spawnLevel1H s dd speed r =
      ([], ⟨s, { s with
        level := s.level + 1
        phase := Phase.normal
        phaseStartDistance := s.distance + dd
        nextSpawnDistance := s.distance + dd + LEVEL2_SPAWN_INTERVAL
        distance := s.distance + dd
        funnelProgress := 0
        majorLevel := 2
        level2Distance := 0 }⟩, 2.0) := by
  have hph' : ¬ s.phase = Phase.normal := by simp [hph]
  simp only [spawnLevel1H, if_neg hph', if_pos hpd, if_pos hl]

theorem spawnLevel1H_funnel_spawn (s : ObstacleState) (dd speed : ℚ)
    (r : Rand) (hph : s.phase = Phase.funnel)
    (hpd : ¬ FUNNEL_DISTANCE ≤ s.distance + dd - s.phaseStartDistance)
    (hns : s.nextSpawnDistance ≤ s.distance + dd) :
    spawnLevel1H s dd speed r =
      (spawnFunnelWalls ((s.distance + dd - s.phaseStartDistance) / FUNNEL_DISTANCE)
          (getLevelColor s.level),
       ⟨s, { s with
        distance := s.distance + dd
        funnelProgress := (s.distance + dd - s.phaseStartDistance) / FUNNEL_DISTANCE
        nextSpawnDistance := s.distance + dd + FUNNEL_SPAWN_INTERVAL }⟩, speed) := by
  have hph' : ¬ s.phase = Phase.normal := by simp [hph]
  simp only [spawnLevel1H, if_neg hph', if_neg hpd, if_pos hns]

theorem spawnLevel1H_funnel_idle (s : ObstacleState) (dd speed : ℚ)
    (r : Rand) (hph : s.phase = Phase.funnel)
    (hpd : ¬ FUNNEL_DISTANCE ≤ s.distance + dd - s.phaseStartDistance)
    (hns : ¬ s.nextSpawnDistance ≤ s.distance + dd) :
    spawnLevel1H s dd speed r =
      ([], ⟨s, { s with
        distance := s.distance + dd
        funnelProgress := (s.distance + dd - s.phaseStartDistance) / FUNNEL_DISTANCE }⟩,
       speed) := by
  have hph' : ¬ s.phase = Phase.normal := by simp [hph]
  simp only [spawnLevel1H, if_neg hph', if_neg hpd, if_neg hns]

theorem spawnLevel2H_normal_toFunnel (s : ObstacleState) (dd : ℚ) (r : Rand)
    (hph : s.phase = Phase.normal)
    (hl2 : LEVEL2_DISTANCE ≤ s.level2Distance + dd) :
    spawnLevel2H s dd r =
      ([], ⟨s, { s with
        distance := s.distance + dd
        level2Distance := s.level2Distance + dd
        phase := Phase.funnel
        phaseStartDistance := s.distance + dd
        funnelProgress := 0
        nextSpawnDistance := s.distance + dd }⟩, 2.0) := by
  simp only [spawnLevel2H, if_pos hph, if_pos hl2]

theorem spawnLevel2H_normal_spawn (s : ObstacleState) (dd : ℚ) (r : Rand)
    (hph : s.phase = Phase.normal)
    (hl2 : ¬ LEVEL2_DISTANCE ≤ s.level2Distance + dd)
    (hns : s.nextSpawnDistance ≤ s.distance + dd) :
    spawnLevel2H s dd r =
      ([createObstacle ((r.a - 0.5) * 16) (randomColor r.c) false
          (some (if r.b < 0.5 then LEVEL2_LOW_Y else LEVEL2_HIGH_Y))],
       ⟨s, { s with
        distance := s.distance + dd
        level2Distance := s.level2Distance + dd
        nextSpawnDistance := s.distance + dd + LEVEL2_SPAWN_INTERVAL }⟩, 2.0) := by
  simp only [spawnLevel2H, if_pos hph, if_neg hl2, if_pos hns]

theorem spawnLevel2H_normal_idle (s : ObstacleState) (dd : ℚ) (r : Rand)
    (hph : s.phase = Phase.normal)
    (hl2 : ¬ LEVEL2_DISTANCE ≤ s.level2Distance + dd)
    (hns : ¬ s.nextSpawnDistance ≤ s.distance + dd) :
    spawnLevel2H s dd r =
      ([], ⟨s, { s with
        distance := s.distance + dd
        level2Distance := s.level2Distance + dd }⟩, 2.0) := by
  simp only [spawnLevel2H, if_pos hph, if_neg hl2, if_neg hns]

theorem spawnLevel2H_funnel_victory (s : ObstacleState) (dd : ℚ) (r : Rand)
    (hph : s.phase = Phase.funnel)
    (hpd : LEVEL2_FUNNEL_DISTANCE ≤ s.distance + dd - s.phaseStartDistance) :
    spawnLevel2H s dd r =
      ([], ⟨s, { s with
        distance := s.distance + dd
        level2Distance := s.level2Distance + dd
        funnelProgress :=
          (s.distance + dd - s.phaseStartDistance) / LEVEL2_FUNNEL_DISTANCE
        majorLevel := 3 }⟩, 2.0) := by
  have hph' : ¬ s.phase = Phase.normal := by simp [hph]
  simp only [spawnLevel2H, if_neg hph', if_pos hpd]

theorem spawnLevel2H_funnel_spawn (s : ObstacleState) (dd : ℚ) (r : Rand)
    (hph : s.phase = Phase.funnel)
    (hpd : ¬ LEVEL2_FUNNEL_DISTANCE ≤ s.distance + dd - s.phaseStartDistance)
    (hns : s.nextSpawnDistance ≤ s.distance + dd) :
    spawnLevel2H s dd r =
      (spawnLevel2FunnelWalls
          ((s.distance + dd - s.phaseStartDistance) / LEVEL2_FUNNEL_DISTANCE)
          (randomColor r.a),
       ⟨s, { s with
        distance := s.distance + dd
        level2Distance := s.level2Distance + dd
        funnelProgress :=
          (s.distance + dd - s.phaseStartDistance) / LEVEL2_FUNNEL_DISTANCE
        nextSpawnDistance := s.distance + dd + LEVEL2_FUNNEL_SPAWN_INTERVAL }⟩,
       2.0) := by
  have hph' : ¬ s.phase = Phase.normal := by simp [hph]
  simp only [spawnLevel2H, if_neg hph', if_neg hpd, if_pos hns]

theorem spawnLevel2H_funnel_idle (s : ObstacleState) (dd : ℚ) (r : Rand)
    (hph : s.phase = Phase.funnel)
    (hpd : ¬ LEVEL2_FUNNEL_DISTANCE ≤ s.distance + dd - s.phaseStartDistance)
    (hns : ¬ s.nextSpawnDistance ≤ s.distance + dd) :
    spawnLevel2H s dd r =
      ([], ⟨s, { s with
        distance := s.distance + dd
        level2Distance := s.level2Distance + dd
        funnelProgress :=
          (s.distance + dd - s.phaseStartDistance) / LEVEL2_FUNNEL_DISTANCE }⟩,
       2.0) := by
  have hph' : ¬ s.phase = Phase.normal := by simp [hph]
  simp only [spawnLevel2H, if_neg hph', if_neg hpd, if_neg hns]


theorem stateInv_step (s : ObstacleState) (delta speed : ℚ) (r : Rand)
    (hInv : StateInv s) (hd : 0 ≤ delta) (hv : 0 ≤ speed) :
    StateInv (spawnObstacles s delta speed r).2.1 := by
  obtain ⟨hpsd, hlev, hfp⟩ := hInv
  have hdd : 0 ≤ delta * speed * 15 := by positivity
  have hproj : (spawnObstacles s delta speed r).2.1 =
      (spawnObstaclesH s delta speed r).2.1.copy := rfl
  rw [hproj]
  by_cases hm : s.majorLevel = 2
  · rw [spawnObstaclesH_eq_level2 s delta speed r hm]
    cases hph : s.phase with
    | normal =>
      by_cases hl2 : LEVEL2_DISTANCE ≤ s.level2Distance + delta * speed * 15
      · rw [spawnLevel2H_normal_toFunnel s _ r hph hl2]
        exact ⟨by simp, by simpa, fun _ => by norm_num⟩
      · by_cases hns : s.nextSpawnDistance ≤ s.distance + delta * speed * 15
        · rw [spawnLevel2H_normal_spawn s _ r hph hl2 hns]
          exact ⟨by simp; linarith, by simpa, fun _ => hfp (by omega)⟩
        · rw [spawnLevel2H_normal_idle s _ r hph hl2 hns]
          exact ⟨by simp; linarith, by simpa, fun _ => hfp (by omega)⟩
    | funnel =>
      by_cases hpd : LEVEL2_FUNNEL_DISTANCE ≤
          s.distance + delta * speed * 15 - s.phaseStartDistance
      · rw [spawnLevel2H_funnel_victory s _ r hph hpd]
        exact ⟨by simp; linarith, by simpa, fun h3 => absurd rfl h3⟩
      · by_cases hns : s.nextSpawnDistance ≤ s.distance + delta * speed * 15
        · rw [spawnLevel2H_funnel_spawn s _ r hph hpd hns]
          refine ⟨by simp; linarith, by simpa, fun _ => ⟨?_, ?_⟩⟩
          · simp only
            apply div_nonneg (by linarith) (by norm_num [LEVEL2_FUNNEL_DISTANCE])
          · simp only
            rw [div_le_one (by norm_num [LEVEL2_FUNNEL_DISTANCE])]
            norm_num [LEVEL2_FUNNEL_DISTANCE] at hpd ⊢
            linarith
        · rw [spawnLevel2H_funnel_idle s _ r hph hpd hns]
          refine ⟨by simp; linarith, by simpa, fun _ => ⟨?_, ?_⟩⟩
          · simp only
            apply div_nonneg (by linarith) (by norm_num [LEVEL2_FUNNEL_DISTANCE])
          · simp only
            rw [div_le_one (by norm_num [LEVEL2_FUNNEL_DISTANCE])]
            norm_num [LEVEL2_FUNNEL_DISTANCE] at hpd ⊢
            linarith
  · rw [spawnObstaclesH_eq_level1 s delta speed r hm]
    cases hph : s.phase with
    | normal =>
      by_cases hpd : LEVEL_DISTANCE ≤
          s.distance + delta * speed * 15 - s.phaseStartDistance
      · rw [spawnLevel1H_normal_toFunnel s _ speed r hph hpd]
        exact ⟨by simp, by simpa, fun _ => by norm_num⟩
      · by_cases hns : s.nextSpawnDistance ≤ s.distance + delta * speed * 15
        · rw [spawnLevel1H_normal_spawn s _ speed r hph hpd hns]
          exact ⟨by simp; linarith, by simpa, fun h => hfp h⟩
        · rw [spawnLevel1H_normal_idle s _ speed r hph hpd hns]
          exact ⟨by simp; linarith, by simpa, fun h => hfp h⟩
    | funnel =>
      by_cases hpd : FUNNEL_DISTANCE ≤
          s.distance + delta * speed * 15 - s.phaseStartDistance
      · by_cases hl : 6 < s.level + 1
        · rw [spawnLevel1H_funnel_levelUp_major s _ speed r hph hpd hl]
          exact ⟨by simp, by simp; omega, fun _ => by norm_num⟩
        · rw [spawnLevel1H_funnel_levelUp s _ speed r hph hpd hl]
          exact ⟨by simp, by simp; omega, fun _ => by norm_num⟩
      · by_cases hns : s.nextSpawnDistance ≤ s.distance + delta * speed * 15
        · rw [spawnLevel1H_funnel_spawn s _ speed r hph hpd hns]
          refine ⟨by simp; linarith, by simpa, fun _ => ⟨?_, ?_⟩⟩
          · simp only
            apply div_nonneg (by linarith) (by norm_num [FUNNEL_DISTANCE])
          · simp only
            rw [div_le_one (by norm_num [FUNNEL_DISTANCE])]
            norm_num [FUNNEL_DISTANCE] at hpd ⊢
            linarith
        · rw [spawnLevel1H_funnel_idle s _ speed r hph hpd hns]
          refine ⟨by simp; linarith, by simpa, fun _ => ⟨?_, ?_⟩⟩
          · simp only
            apply div_nonneg (by linarith) (by norm_num [FUNNEL_DISTANCE])
          · simp only
            rw [div_le_one (by norm_num [FUNNEL_DISTANCE])]
            norm_num [FUNNEL_DISTANCE] at hpd ⊢
            linarith


theorem cexStep1 :
    tickF ⟨1, Phase.normal, 0, 15, 0, 0, 1, 0⟩ (44, 1) =
      ⟨1, Phase.funnel, 660, 660, 660, 0, 1, 0⟩ := by
  norm_num +decide [tickF, spawnObstacles, spawnObstaclesH, spawnLevel1H,
    spawnLevel2H, getLevelSpeed, getLevelColor, randomColor, rand0,
    LEVEL_DISTANCE, FUNNEL_DISTANCE, SPAWN_INTERVAL, FUNNEL_SPAWN_INTERVAL,
    LEVEL2_SPAWN_INTERVAL, LEVEL2_DISTANCE, LEVEL2_FUNNEL_DISTANCE,
    LEVEL2_FUNNEL_SPAWN_INTERVAL]

theorem cexStep2 :
    tickF ⟨1, Phase.funnel, 660, 660, 660, 0, 1, 0⟩ (11/3, 1) =
      ⟨2, Phase.normal, 715, 720, 715, 0, 1, 0⟩ := by
  norm_num +decide [tickF, spawnObstacles, spawnObstaclesH, spawnLevel1H,
    spawnLevel2H, getLevelSpeed, getLevelColor, randomColor, rand0,
    LEVEL_DISTANCE, FUNNEL_DISTANCE, SPAWN_INTERVAL, FUNNEL_SPAWN_INTERVAL,
    LEVEL2_SPAWN_INTERVAL, LEVEL2_DISTANCE, LEVEL2_FUNNEL_DISTANCE,
    LEVEL2_FUNNEL_SPAWN_INTERVAL]

theorem cexStep3 :
    tickF ⟨2, Phase.normal, 715, 720, 715, 0, 1, 0⟩ (44, 1) =
      ⟨2, Phase.funnel, 1375, 1375, 1375, 0, 1, 0⟩ := by
  norm_num +decide [tickF, spawnObstacles, spawnObstaclesH, spawnLevel1H,
    spawnLevel2H, getLevelSpeed, getLevelColor, randomColor, rand0,
    LEVEL_DISTANCE, FUNNEL_DISTANCE, SPAWN_INTERVAL, FUNNEL_SPAWN_INTERVAL,
    LEVEL2_SPAWN_INTERVAL, LEVEL2_DISTANCE, LEVEL2_FUNNEL_DISTANCE,
    LEVEL2_FUNNEL_SPAWN_INTERVAL]

theorem cexStep4 :
    tickF ⟨2, Phase.funnel, 1375, 1375, 1375, 0, 1, 0⟩ (11/3, 1) =
      ⟨3, Phase.normal, 1430, 1435, 1430, 0, 1, 0⟩ := by
  norm_num +decide [tickF, spawnObstacles, spawnObstaclesH, spawnLevel1H,
    spawnLevel2H, getLevelSpeed, getLevelColor, randomColor, rand0,
    LEVEL_DISTANCE, FUNNEL_DISTANCE, SPAWN_INTERVAL, FUNNEL_SPAWN_INTERVAL,
    LEVEL2_SPAWN_INTERVAL, LEVEL2_DISTANCE, LEVEL2_FUNNEL_DISTANCE,
    LEVEL2_FUNNEL_SPAWN_INTERVAL]

theorem cexStep5 :
    tickF ⟨3, Phase.normal, 1430, 1435, 1430, 0, 1, 0⟩ (44, 1) =
      ⟨3, Phase.funnel, 2090, 2090, 2090, 0, 1, 0⟩ := by
  norm_num +decide [tickF, spawnObstacles, spawnObstaclesH, spawnLevel1H,
    spawnLevel2H, getLevelSpeed, getLevelColor, randomColor, rand0,
    LEVEL_DISTANCE, FUNNEL_DISTANCE, SPAWN_INTERVAL, FUNNEL_SPAWN_INTERVAL,
    LEVEL2_SPAWN_INTERVAL, LEVEL2_DISTANCE, LEVEL2_FUNNEL_DISTANCE,
    LEVEL2_FUNNEL_SPAWN_INTERVAL]

theorem cexStep6 :
    tickF ⟨3, Phase.funnel, 2090, 2090, 2090, 0, 1, 0⟩ (11/3, 1) =
      ⟨4, Phase.normal, 2145, 2150, 2145, 0, 1, 0⟩ := by
  norm_num +decide [tickF, spawnObstacles, spawnObstaclesH, spawnLevel1H,
    spawnLevel2H, getLevelSpeed, getLevelColor, randomColor, rand0,
    LEVEL_DISTANCE, FUNNEL_DISTANCE, SPAWN_INTERVAL, FUNNEL_SPAWN_INTERVAL,
    LEVEL2_SPAWN_INTERVAL, LEVEL2_DISTANCE, LEVEL2_FUNNEL_DISTANCE,
    LEVEL2_FUNNEL_SPAWN_INTERVAL]

theorem cexStep7 :
    tickF ⟨4, Phase.normal, 2145, 2150, 2145, 0, 1, 0⟩ (44, 1) =
      ⟨4, Phase.funnel, 2805, 2805, 2805, 0, 1, 0⟩ := by
  norm_num +decide [tickF, spawnObstacles, spawnObstaclesH, spawnLevel1H,
    spawnLevel2H, getLevelSpeed, getLevelColor, randomColor, rand0,
    LEVEL_DISTANCE, FUNNEL_DISTANCE, SPAWN_INTERVAL, FUNNEL_SPAWN_INTERVAL,
    LEVEL2_SPAWN_INTERVAL, LEVEL2_DISTANCE, LEVEL2_FUNNEL_DISTANCE,
    LEVEL2_FUNNEL_SPAWN_INTERVAL]

theorem cexStep8 :
    tickF ⟨4, Phase.funnel, 2805, 2805, 2805, 0, 1, 0⟩ (11/3, 1) =
      ⟨5, Phase.normal, 2860, 2865, 2860, 0, 1, 0⟩ := by
  norm_num +decide [tickF, spawnObstacles, spawnObstaclesH, spawnLevel1H,
    spawnLevel2H, getLevelSpeed, getLevelColor, randomColor, rand0,
    LEVEL_DISTANCE, FUNNEL_DISTANCE, SPAWN_INTERVAL, FUNNEL_SPAWN_INTERVAL,
    LEVEL2_SPAWN_INTERVAL, LEVEL2_DISTANCE, LEVEL2_FUNNEL_DISTANCE,
    LEVEL2_FUNNEL_SPAWN_INTERVAL]

theorem cexStep9 :
    tickF ⟨5, Phase.normal, 2860, 2865, 2860, 0, 1, 0⟩ (44, 1) =
      ⟨5, Phase.funnel, 3520, 3520, 3520, 0, 1, 0⟩ := by
  norm_num +decide [tickF, spawnObstacles, spawnObstaclesH, spawnLevel1H,
    spawnLevel2H, getLevelSpeed, getLevelColor, randomColor, rand0,
    LEVEL_DISTANCE, FUNNEL_DISTANCE, SPAWN_INTERVAL, FUNNEL_SPAWN_INTERVAL,
    LEVEL2_SPAWN_INTERVAL, LEVEL2_DISTANCE, LEVEL2_FUNNEL_DISTANCE,
    LEVEL2_FUNNEL_SPAWN_INTERVAL]

theorem cexStep10 :
    tickF ⟨5, Phase.funnel, 3520, 3520, 3520, 0, 1, 0⟩ (11/3, 1) =
      ⟨6, Phase.normal, 3575, 3580, 3575, 0, 1, 0⟩ := by
  norm_num +decide [tickF, spawnObstacles, spawnObstaclesH, spawnLevel1H,
    spawnLevel2H, getLevelSpeed, getLevelColor, randomColor, rand0,
    LEVEL_DISTANCE, FUNNEL_DISTANCE, SPAWN_INTERVAL, FUNNEL_SPAWN_INTERVAL,
    LEVEL2_SPAWN_INTERVAL, LEVEL2_DISTANCE, LEVEL2_FUNNEL_DISTANCE,
    LEVEL2_FUNNEL_SPAWN_INTERVAL]

theorem cexStep11 :
    tickF ⟨6, Phase.normal, 3575, 3580, 3575, 0, 1, 0⟩ (44, 1) =
      ⟨6, Phase.funnel, 4235, 4235, 4235, 0, 1, 0⟩ := by
  norm_num +decide [tickF, spawnObstacles, spawnObstaclesH, spawnLevel1H,
    spawnLevel2H, getLevelSpeed, getLevelColor, randomColor, rand0,
    LEVEL_DISTANCE, FUNNEL_DISTANCE, SPAWN_INTERVAL, FUNNEL_SPAWN_INTERVAL,
    LEVEL2_SPAWN_INTERVAL, LEVEL2_DISTANCE, LEVEL2_FUNNEL_DISTANCE,
    LEVEL2_FUNNEL_SPAWN_INTERVAL]

theorem cexStep12 :
    tickF ⟨6, Phase.funnel, 4235, 4235, 4235, 0, 1, 0⟩ (11/3, 1) =
      ⟨7, Phase.normal, 4290, 4293, 4290, 0, 2, 0⟩ := by
  norm_num +decide [tickF, spawnObstacles, spawnObstaclesH, spawnLevel1H,
    spawnLevel2H, getLevelSpeed, getLevelColor, randomColor, rand0,
    LEVEL_DISTANCE, FUNNEL_DISTANCE, SPAWN_INTERVAL, FUNNEL_SPAWN_INTERVAL,
    LEVEL2_SPAWN_INTERVAL, LEVEL2_DISTANCE, LEVEL2_FUNNEL_DISTANCE,
    LEVEL2_FUNNEL_SPAWN_INTERVAL]

theorem cexStep13 :
    tickF ⟨7, Phase.normal, 4290, 4293, 4290, 0, 2, 0⟩ (100, 1) =
      ⟨7, Phase.funnel, 5790, 5790, 5790, 0, 2, 1500⟩ := by
  norm_num +decide [tickF, spawnObstacles, spawnObstaclesH, spawnLevel1H,
    spawnLevel2H, getLevelSpeed, getLevelColor, randomColor, rand0,
    LEVEL_DISTANCE, FUNNEL_DISTANCE, SPAWN_INTERVAL, FUNNEL_SPAWN_INTERVAL,
    LEVEL2_SPAWN_INTERVAL, LEVEL2_DISTANCE, LEVEL2_FUNNEL_DISTANCE,
    LEVEL2_FUNNEL_SPAWN_INTERVAL]

theorem cexStep14 :
    tickF ⟨7, Phase.funnel, 5790, 5790, 5790, 0, 2, 1500⟩ (22/3, 1) =
      ⟨7, Phase.funnel, 5790, 5790, 5900, 2, 3, 1610⟩ := by
  norm_num +decide [tickF, spawnObstacles, spawnObstaclesH, spawnLevel1H,
    spawnLevel2H, getLevelSpeed, getLevelColor, randomColor, rand0,
    LEVEL_DISTANCE, FUNNEL_DISTANCE, SPAWN_INTERVAL, FUNNEL_SPAWN_INTERVAL,
    LEVEL2_SPAWN_INTERVAL, LEVEL2_DISTANCE, LEVEL2_FUNNEL_DISTANCE,
    LEVEL2_FUNNEL_SPAWN_INTERVAL]

/-- Closed-form evaluation of the 14-tick schedule. -/
theorem cexState_eq : cexState = ⟨7, Phase.funnel, 5790, 5790, 5900, 2, 3, 1610⟩ := by
  have h0 : createObstacleState 0 = ⟨1, Phase.normal, 0, 15, 0, 0, 1, 0⟩ := rfl
  simp only [cexState, cexTicks, List.foldl_cons, List.foldl_nil, h0]
  rw [cexStep1, cexStep2, cexStep3, cexStep4, cexStep5, cexStep6, cexStep7, cexStep8, cexStep9, cexStep10, cexStep11, cexStep12, cexStep13, cexStep14]

theorem randOk_rand0 : randOk rand0 := by norm_num [randOk, rand0]

theorem reach_foldl (ts : List (ℚ × ℚ)) (s : ObstacleState) (hs : Reach s)
    (hall : ∀ p ∈ ts, 0 ≤ p.1 ∧ 0 ≤ p.2) : Reach (ts.foldl tickF s) := by
  induction ts generalizing s with
  | nil => exact hs
  | cons p ts ih =>
    simp only [List.foldl_cons]
    exact ih _
      (Reach.step s p.1 p.2 rand0 hs (hall p (by simp)).1 (hall p (by simp)).2
        randOk_rand0)
      (fun q hq => hall q (by simp [hq]))


theorem stepMarker_id (t : TickIn) (m m' : Marker)
    (h : (stepMarker t m).1 = some m') : m'.id = m.id := by
  simp only [stepMarker] at h
  by_cases h10 : 10 < m.z + t.delta * t.speed * 15
  · simp [if_pos h10] at h
  · simp only [if_neg h10, Option.some.injEq] at h
    subst h; rfl

theorem stepMarker_passed (t : TickIn) (m m' : Marker)
    (h : (stepMarker t m).1 = some m') (hp : m.passed = true) :
    m'.passed = true := by
  simp only [stepMarker] at h
  by_cases h10 : 10 < m.z + t.delta * t.speed * 15
  · simp [if_pos h10] at h
  · simp only [if_neg h10, Option.some.injEq] at h
    subst h
    simp only
    split <;> simp [hp]

theorem stepMarker_events_mem (t : TickIn) (m : Marker) (e : ℕ × ℕ)
    (h : e ∈ (stepMarker t m).2.1) :
    e = (m.id, if m.high then 20 else 10) := by
  simp only [stepMarker] at h
  by_cases hc : m.passed = false ∧ 4 < m.z + t.delta * t.speed * 15
  · simp [if_pos hc] at h
    simp [h]
  · simp [if_neg hc] at h

theorem updateObstacles_append (a b : List Marker) (t : TickIn) :
    updateObstacles (a ++ b) t =
      ((updateObstacles a t).1 ++ (updateObstacles b t).1,
       (updateObstacles b t).2.1 ++ (updateObstacles a t).2.1,
       (updateObstacles b t).2.2 || (updateObstacles a t).2.2) := by
  induction a with
  | nil => simp [updateObstacles]
  | cons m rest ih =>
    simp only [List.cons_append, updateObstacles, List.append_eq]
    rw [ih]
    simp [List.append_assoc, Bool.or_assoc]

theorem eventsFor_append (i : ℕ) (e1 e2 : List (ℕ × ℕ)) :
    eventsFor i (e1 ++ e2) = eventsFor i e1 ++ eventsFor i e2 := by
  simp [eventsFor]

theorem updateObstacles_notin (i : ℕ) (cubes : List Marker) (t : TickIn)
    (h : i ∉ cubes.map Marker.id) :
    eventsFor i (updateObstacles cubes t).2.1 = [] ∧
      i ∉ (updateObstacles cubes t).1.map Marker.id := by
  induction cubes with
  | nil => simp [updateObstacles, eventsFor]
  | cons m rest ih =>
    simp only [List.map_cons, List.mem_cons] at h
    push_neg at h
    obtain ⟨hm, hrest⟩ := h
    obtain ⟨ihe, ihc⟩ := ih hrest
    constructor
    · simp only [updateObstacles, eventsFor_append, ihe, List.nil_append]
      simp only [eventsFor, List.filter_eq_nil_iff]
      intro e he
      have hev := stepMarker_events_mem t m e he
      simp [hev]
      omega
    · simp only [updateObstacles, List.map_append, List.mem_append]
      rintro (hc | hc)
      · rcases ho : (stepMarker t m).1 with _ | m'
        · rw [ho] at hc; simp at hc
        · rw [ho] at hc; simp at hc
          rw [stepMarker_id t m m' ho] at hc
          omega
      · exact ihc hc


theorem stepMarker_events_passed (t : TickIn) (m : Marker)
    (hp : m.passed = true) : (stepMarker t m).2.1 = [] := by
  simp [stepMarker, hp]

theorem runMarker_cons (m : Marker) (t : TickIn) (ts : List TickIn) :
    runMarker m (t :: ts) =
      (stepMarker t m).2.1 ++
        (match (stepMarker t m).1 with
          | none => []
          | some m1 => runMarker m1 ts) := by
  simp only [runMarker]
  rcases h : stepMarker t m with ⟨s, e, c⟩
  cases s <;> simp

theorem passed_runMarker (m : Marker) (ts : List TickIn)
    (hp : m.passed = true) : runMarker m ts = [] := by
  induction ts generalizing m with
  | nil => rfl
  | cons t ts ih =>
    rw [runMarker_cons, stepMarker_events_passed t m hp]
    rcases ho : (stepMarker t m).1 with _ | m'
    · simp
    · simpa using ih m' (stepMarker_passed t m m' ho hp)

theorem stepMarker_scored (t : TickIn) (m : Marker) (m' : Marker)
    (hp : m.passed = false) (h4 : 4 < m.z + t.delta * t.speed * 15)
    (ho : (stepMarker t m).1 = some m') : m'.passed = true := by
  simp only [stepMarker] at ho
  by_cases h10 : 10 < m.z + t.delta * t.speed * 15
  · simp [if_pos h10] at ho
  · simp only [if_neg h10, Option.some.injEq] at ho
    subst ho
    simp [hp, h4]

theorem runMarker_eq_crosses (m : Marker) (ts : List TickIn)
    (hp : m.passed = false) :
    runMarker m ts =
      if crossesScoringPlane m ts then [(m.id, if m.high then 20 else 10)]
      else [] := by
  induction ts generalizing m with
  | nil => simp [runMarker, crossesScoringPlane]
  | cons t ts ih =>
    rw [runMarker_cons]
    by_cases h4 : 4 < m.z + t.delta * t.speed * 15
    · have hev : (stepMarker t m).2.1 = [(m.id, if m.high then 20 else 10)] := by
        simp [stepMarker, hp, h4]
      have hcr : crossesScoringPlane m (t :: ts) = true := by
        simp [crossesScoringPlane, h4]
      rw [hev, hcr, if_pos rfl]
      rcases ho : (stepMarker t m).1 with _ | m'
      · simp
      · simpa using passed_runMarker m' ts (stepMarker_scored t m m' hp h4 ho)
    · have hev : (stepMarker t m).2.1 = [] := by
        simp [stepMarker, hp, h4]
      have h10 : ¬ 10 < m.z + t.delta * t.speed * 15 := fun h => h4 (by linarith)
      have ho : (stepMarker t m).1 =
          some { m with z := m.z + t.delta * t.speed * 15 } := by
        simp [stepMarker, h10, hp, h4]
      have hcr : crossesScoringPlane m (t :: ts) =
          crossesScoringPlane { m with z := m.z + t.delta * t.speed * 15 } ts := by
        simp [crossesScoringPlane, h4]
      rw [hev, ho, hcr]
      simpa using ih { m with z := m.z + t.delta * t.speed * 15 } hp

theorem runMarker_length (m : Marker) (ts : List TickIn) :
    (runMarker m ts).length ≤ 1 := by
  cases hp : m.passed
  · rw [runMarker_eq_crosses m ts hp]
    split <;> simp
  · rw [passed_runMarker m ts hp]
    simp

theorem runTicks_notin (i : ℕ) (ts : List TickIn) (cubes : List Marker)
    (h : i ∉ cubes.map Marker.id) :
    eventsFor i (runTicks cubes ts).2 = [] := by
  induction ts generalizing cubes with
  | nil => simp [runTicks, eventsFor]
  | cons t ts ih =>
    obtain ⟨he, hc⟩ := updateObstacles_notin i cubes t h
    simp only [runTicks, eventsFor_append, he, List.nil_append]
    exact ih _ hc

theorem eventsFor_step_self (t : TickIn) (m : Marker) :
    eventsFor m.id (stepMarker t m).2.1 = (stepMarker t m).2.1 := by
  by_cases hc : m.passed = false ∧ 4 < m.z + t.delta * t.speed * 15
  · simp [stepMarker, hc, eventsFor]
  · simp [stepMarker, hc, eventsFor]

theorem eventsFor_run (ts : List TickIn) (pre post : List Marker) (m : Marker)
    (hpre : m.id ∉ pre.map Marker.id) (hpost : m.id ∉ post.map Marker.id) :
    eventsFor m.id (runTicks (pre ++ m :: post) ts).2 = runMarker m ts := by
  induction ts generalizing pre post m with
  | nil => simp [runTicks, runMarker, eventsFor]
  | cons t ts ih =>
    simp only [runTicks]
    rw [updateObstacles_append pre (m :: post) t]
    obtain ⟨hepre, hcpre⟩ := updateObstacles_notin m.id pre t hpre
    obtain ⟨hepost, hcpost⟩ := updateObstacles_notin m.id post t hpost
    simp only [updateObstacles, eventsFor_append, hepre, hepost,
      eventsFor_step_self, List.append_nil, List.nil_append]
    rcases ho : (stepMarker t m).1 with _ | m'
    · have hnotin : m.id ∉
          ((updateObstacles pre t).1 ++
            ((none : Option Marker).toList ++ (updateObstacles post t).1)).map
            Marker.id := by
        simp only [Option.toList_none, List.nil_append, List.map_append,
          List.mem_append]
        rintro (hc | hc)
        · exact hcpre hc
        · exact hcpost hc
      rw [runTicks_notin m.id ts _ hnotin, List.append_nil]
      rw [runMarker_cons, ho]
      simp
    · have hid : m'.id = m.id := stepMarker_id t m m' ho
      have hrec := ih (updateObstacles pre t).1 (updateObstacles post t).1 m'
        (by rw [hid]; exact hcpre) (by rw [hid]; exact hcpost)
      rw [hid] at hrec
      simp only [Option.toList_some, List.singleton_append]
      rw [hrec]
      rw [runMarker_cons, ho]


theorem stepMarker_collided_iff (t : TickIn) (m : Marker) :
    (stepMarker t m).2.2 = true ↔
      (2 < m.z + t.delta * t.speed * 15 ∧ m.z + t.delta * t.speed * 15 < 4 ∧
        |m.x - t.shipX| < 0.8 ∧ |m.y - t.shipY| < 1.2) := by
  simp [stepMarker]

theorem updateObstacles_collided_iff (cubes : List Marker) (t : TickIn) :
    (updateObstacles cubes t).2.2 = true ↔
      ∃ m ∈ cubes,
        2 < m.z + t.delta * t.speed * 15 ∧ m.z + t.delta * t.speed * 15 < 4 ∧
          |m.x - t.shipX| < 0.8 ∧ |m.y - t.shipY| < 1.2 := by
  induction cubes with
  | nil => simp [updateObstacles]
  | cons m rest ih =>
    simp only [updateObstacles, Bool.or_eq_true, ih]
    constructor
    · rintro (⟨m', hm', hp⟩ | h)
      · exact ⟨m', List.mem_cons_of_mem _ hm', hp⟩
      · exact ⟨m, List.mem_cons_self _ _, (stepMarker_collided_iff t m).mp h⟩
    · rintro ⟨m', hm', hp⟩
      rcases List.mem_cons.mp hm' with rfl | hmem
      · exact Or.inr ((stepMarker_collided_iff t m').mpr hp)
      · exact Or.inl ⟨m', hmem, hp⟩

theorem updateObstacles_ship_frame (cubes : List Marker) (t : TickIn)
    (sx sy : ℚ) :
    (updateObstacles cubes { t with shipX := sx, shipY := sy }).1 =
        (updateObstacles cubes t).1 ∧
      (updateObstacles cubes { t with shipX := sx, shipY := sy }).2.1 =
        (updateObstacles cubes t).2.1 := by
  induction cubes with
  | nil => simp [updateObstacles]
  | cons m rest ih =>
    simp only [updateObstacles]
    rw [ih.1, ih.2]
    exact ⟨rfl, rfl⟩

theorem wallCandidates_mem (x : ℚ) :
    x ∈ wallCandidates ↔ ∃ k : ℕ, k < 11 ∧ x = -8 + 1.5 * (k : ℚ) := by
  unfold wallCandidates
  rw [List.mem_map]
  constructor
  · rintro ⟨k, hk, rfl⟩
    exact ⟨k, List.mem_range.mp hk, rfl⟩
  · rintro ⟨k, hk, rfl⟩
    exact ⟨k, List.mem_range.mpr hk, rfl⟩

theorem spawnFunnelWalls_x_mem (p : ℚ) (c : ℕ) (x : ℚ) :
    x ∈ (spawnFunnelWalls p c).map Marker.x ↔
      ((∃ k : ℕ, k < 11 ∧ x = -8 + 1.5 * (k : ℚ)) ∧
        (x < -(gapHalf p) ∨ gapHalf p < x)) := by
  constructor
  · intro hx
    simp only [List.mem_map] at hx
    obtain ⟨m, hm, rfl⟩ := hx
    simp only [spawnFunnelWalls, List.mem_map, List.mem_filter] at hm
    obtain ⟨y, ⟨hy, hout⟩, rfl⟩ := hm
    rw [wallCandidates_mem] at hy
    simp only [decide_eq_true_eq] at hout
    exact ⟨by simpa [createObstacle] using hy,
      by simpa [createObstacle] using hout⟩
  · rintro ⟨⟨k, hk, rfl⟩, hout⟩
    simp only [List.mem_map]
    refine ⟨createObstacle (-8 + 1.5 * (k : ℚ)) c, ?_, rfl⟩
    simp only [spawnFunnelWalls, List.mem_map, List.mem_filter]
    refine ⟨-8 + 1.5 * (k : ℚ), ⟨(wallCandidates_mem _).mpr ⟨k, hk, rfl⟩, ?_⟩, rfl⟩
    simpa [decide_eq_true_eq] using hout

/-- C7 counterexample: at full progress the spawned lateral positions are not
symmetric about 0 (the claim asserts symmetry for every progress in [0,1]):
`-5` is spawned but `5` is not even a candidate (the loop stops at `7`). -/
theorem claim7_counterexample :
    ¬ ∀ x ∈ (spawnFunnelWalls 1 0).map Marker.x,
        -x ∈ (spawnFunnelWalls 1 0).map Marker.x := by
  intro h
  have h5 : (-5 : ℚ) ∈ (spawnFunnelWalls 1 0).map Marker.x :=
    (spawnFunnelWalls_x_mem 1 0 (-5)).mpr
      ⟨⟨2, by norm_num, by norm_num⟩, by norm_num [gapHalf]⟩
  have hmem := h (-5) h5
  rw [spawnFunnelWalls_x_mem] at hmem
  obtain ⟨⟨k, hk, hkeq⟩, _⟩ := hmem
  interval_cases k <;> norm_num at hkeq

/-- C7 (amended): a funnel wall spawn places markers exactly at the candidate
lateral positions `-8 + 1.5 * k`, `k = 0, ..., 10` (the loop steps by 1.5 from
`-8` while `x ≤ 8`, so `8` itself is never a candidate), that lie strictly
outside the central gap; every spawned marker is a ground cube of the given
color.  The candidate grid is asymmetric about 0, so the spawned set need not
be symmetric. -/
theorem claim7_amended (p : ℚ) (c : ℕ) :
    (∀ x : ℚ,
      x ∈ (spawnFunnelWalls p c).map Marker.x ↔
        ((∃ k : ℕ, k < 11 ∧ x = -8 + 1.5 * (k : ℚ)) ∧
          (x < -(gapHalf p) ∨ gapHalf p < x))) ∧
    ∀ m ∈ spawnFunnelWalls p c,
      m.y = OBSTACLE_GROUND_Y ∧ m.z = -40 ∧ m.passed = false ∧
        m.high = false ∧ m.color = c := by
  refine ⟨spawnFunnelWalls_x_mem p c, ?_⟩
  intro m hm
  simp only [spawnFunnelWalls, List.mem_map] at hm
  obtain ⟨y, _, rfl⟩ := hm
  simp [createObstacle]

/-- Witness for C7: at full progress, `-5` is among the spawned lateral
positions. -/
theorem claim7_witness : (-5 : ℚ) ∈ (spawnFunnelWalls 1 0).map Marker.x :=
  ((claim7_amended 1 0).1 (-5)).mpr
    ⟨⟨2, by norm_num, by norm_num⟩, by norm_num [gapHalf]⟩

/-- C2: completing the major-level-1 funnel (phase-local distance after
integration at least 55) increments `level` by 1, returns to the normal
phase, resets the phase bookkeeping to the new distance, sets
`nextSpawnDistance = distance + 5` and `speed = getLevelSpeed (level + 1)`;
and when the new level exceeds 6 it additionally sets `majorLevel = 2`,
`level2Distance = 0`, `speed = 2.0` and `nextSpawnDistance = distance + 3`. -/
theorem claim2_funnel_complete (s : ObstacleState) (delta speed : ℚ)
    (r : Rand) (hmaj : s.majorLevel = 1) (hph : s.phase = Phase.funnel)
    (h55 : 55 ≤ s.distance + delta * speed * 15 - s.phaseStartDistance) :
    (spawnObstacles s delta speed r).2.1.level = s.level + 1 ∧
    (spawnObstacles s delta speed r).2.1.phase = Phase.normal ∧
    (spawnObstacles s delta speed r).2.1.distance =
      s.distance + delta * speed * 15 ∧
    (spawnObstacles s delta speed r).2.1.phaseStartDistance =
      s.distance + delta * speed * 15 ∧
    (spawnObstacles s delta speed r).2.1.funnelProgress = 0 ∧
    (s.level + 1 ≤ 6 →
      (spawnObstacles s delta speed r).2.1.nextSpawnDistance =
          s.distance + delta * speed * 15 + 5 ∧
        (spawnObstacles s delta speed r).2.2 = getLevelSpeed (s.level + 1) ∧
        (spawnObstacles s delta speed r).2.1.majorLevel = s.majorLevel ∧
        (spawnObstacles s delta speed r).2.1.level2Distance =
          s.level2Distance) ∧
    (6 < s.level + 1 →
      (spawnObstacles s delta speed r).2.1.majorLevel = 2 ∧
        (spawnObstacles s delta speed r).2.1.level2Distance = 0 ∧
        (spawnObstacles s delta speed r).2.2 = 2.0 ∧
        (spawnObstacles s delta speed r).2.1.nextSpawnDistance =
          s.distance + delta * speed * 15 + 3) := by
  have h2 : s.majorLevel ≠ 2 := by omega
  have hF : FUNNEL_DISTANCE ≤
      s.distance + delta * speed * 15 - s.phaseStartDistance := by
    simpa [FUNNEL_DISTANCE] using h55
  have hsp : spawnObstacles s delta speed r =
      ((spawnObstaclesH s delta speed r).1,
        (spawnObstaclesH s delta speed r).2.1.copy,
        (spawnObstaclesH s delta speed r).2.2) := rfl
  rw [hsp, spawnObstaclesH_eq_level1 s delta speed r h2]
  by_cases hl : 6 < s.level + 1
  · rw [spawnLevel1H_funnel_levelUp_major s _ speed r hph hF hl]
    refine ⟨rfl, rfl, rfl, rfl, rfl, fun h6 => absurd hl (by omega),
      fun _ => ⟨rfl, rfl, rfl, ?_⟩⟩
    norm_num [LEVEL2_SPAWN_INTERVAL]
  · rw [spawnLevel1H_funnel_levelUp s _ speed r hph hF hl]
    refine ⟨rfl, rfl, rfl, rfl, rfl, fun _ => ⟨?_, rfl, rfl, rfl⟩,
      fun h6 => absurd h6 hl⟩
    norm_num [SPAWN_INTERVAL]

/-- Witness for C2 at a concrete funnel-completion tick. -/
theorem claim2_witness :
    (spawnObstacles (⟨1, Phase.funnel, 0, 0, 55, 1, 1, 0⟩ : ObstacleState)
        0 0 rand0).2.1.level = 2 ∧
      (spawnObstacles (⟨1, Phase.funnel, 0, 0, 55, 1, 1, 0⟩ : ObstacleState)
        0 0 rand0).2.1.phase = Phase.normal := by
  have h := claim2_funnel_complete ⟨1, Phase.funnel, 0, 0, 55, 1, 1, 0⟩ 0 0
    rand0 rfl rfl (by norm_num)
  refine ⟨?_, h.2.1⟩
  rw [h.1]
  norm_num

/-- C3: completing the major-level-1 normal phase (phase-local distance after
integration at least 660) flips to the funnel phase, sets
`phaseStartDistance` and `nextSpawnDistance` to the new distance (so the next
spawn check fires immediately), resets `funnelProgress` to 0, and spawns
nothing on that tick. -/
theorem claim3_normal_complete (s : ObstacleState) (delta speed : ℚ)
    (r : Rand) (hmaj : s.majorLevel = 1) (hph : s.phase = Phase.normal)
    (h660 : 660 ≤ s.distance + delta * speed * 15 - s.phaseStartDistance) :
    (spawnObstacles s delta speed r).1 = [] ∧
    (spawnObstacles s delta speed r).2.1.phase = Phase.funnel ∧
    (spawnObstacles s delta speed r).2.1.distance =
      s.distance + delta * speed * 15 ∧
    (spawnObstacles s delta speed r).2.1.phaseStartDistance =
      s.distance + delta * speed * 15 ∧
    (spawnObstacles s delta speed r).2.1.funnelProgress = 0 ∧
    (spawnObstacles s delta speed r).2.1.nextSpawnDistance =
      s.distance + delta * speed * 15 := by
  have h2 : s.majorLevel ≠ 2 := by omega
  have hL : LEVEL_DISTANCE ≤
      s.distance + delta * speed * 15 - s.phaseStartDistance := by
    simpa [LEVEL_DISTANCE] using h660
  have hsp : spawnObstacles s delta speed r =
      ((spawnObstaclesH s delta speed r).1,
        (spawnObstaclesH s delta speed r).2.1.copy,
        (spawnObstaclesH s delta speed r).2.2) := rfl
  rw [hsp, spawnObstaclesH_eq_level1 s delta speed r h2,
    spawnLevel1H_normal_toFunnel s _ speed r hph hL]
  exact ⟨rfl, rfl, rfl, rfl, rfl, rfl⟩

/-- Witness for C3 at a concrete phase-completion tick. -/
theorem claim3_witness :
    (spawnObstacles (⟨1, Phase.normal, 0, 15, 660, 0, 1, 0⟩ : ObstacleState)
        0 0 rand0).1 = [] ∧
      (spawnObstacles (⟨1, Phase.normal, 0, 15, 660, 0, 1, 0⟩ : ObstacleState)
        0 0 rand0).2.1.phase = Phase.funnel := by
  have h := claim3_normal_complete ⟨1, Phase.normal, 0, 15, 660, 0, 1, 0⟩ 0 0
    rand0 rfl rfl (by norm_num)
  exact ⟨h.1, h.2.1⟩

/-- C8: the funnel gap half-width `gapHalf progress = 8 - progress * (8 - 1.2)`
is monotonically non-increasing on `[0, 1]`, with `gapHalf 0 = 8` and
`gapHalf 1 = 1.2`. -/
theorem claim8_gapHalf_monotone :
    gapHalf 0 = 8 ∧ gapHalf 1 = 1.2 ∧
      ∀ p q : ℚ, 0 ≤ p → p ≤ q → q ≤ 1 → gapHalf q ≤ gapHalf p := by
  refine ⟨by norm_num [gapHalf], by norm_num [gapHalf], ?_⟩
  intro p q _ hpq _
  simp only [gapHalf]
  nlinarith

/-- Witness for C8 at concrete points. -/
theorem claim8_witness : gapHalf 1 ≤ gapHalf (1/2) :=
  claim8_gapHalf_monotone.2.2 (1/2) 1 (by norm_num) (by norm_num) (by norm_num)

/-- C9: under the data-model invariants (`level ≥ 1` and
`phaseStartDistance ≤ distance`), `getLevel1Progress` always lies in `[0, 1]`,
equals 1 whenever `majorLevel ≠ 1`, and for `majorLevel = 1` equals
`(level - 1 + min 1 (phaseDistance / totalPhaseDistance)) / 6` clamped to at
most 1, with total phase distance 660 in the normal phase and 55 in the
funnel phase. -/
theorem claim9_level1Progress (s : ObstacleState) (hlevel : 1 ≤ s.level)
    (hdist : s.phaseStartDistance ≤ s.distance) :
    (0 ≤ getLevel1Progress s ∧ getLevel1Progress s ≤ 1) ∧
      (s.majorLevel ≠ 1 → getLevel1Progress s = 1) ∧
      (s.majorLevel = 1 →
        getLevel1Progress s =
          min 1 ((((s.level : ℚ) - 1) +
            min 1 ((s.distance - s.phaseStartDistance) /
              (if s.phase = Phase.normal then 660 else 55))) / 6)) := by
  unfold getLevel1Progress
  by_cases hm : s.majorLevel = 1
  · have hfrac : (0:ℚ) ≤ min 1 ((s.distance - s.phaseStartDistance) /
        (if s.phase = Phase.normal then LEVEL_DISTANCE else FUNNEL_DISTANCE)) := by
      apply le_min (by norm_num)
      apply div_nonneg (by linarith)
      split <;> norm_num [LEVEL_DISTANCE, FUNNEL_DISTANCE]
    have hlev : (1:ℚ) ≤ (s.level : ℚ) := by exact_mod_cast hlevel
    simp only [hm, ne_eq, not_true_eq_false, if_false]
    refine ⟨⟨?_, min_le_left _ _⟩, fun h => h.elim, fun _ => ?_⟩
    · exact le_min (by norm_num) (div_nonneg (by linarith) (by norm_num))
    · norm_num [LEVEL_DISTANCE, FUNNEL_DISTANCE]
  · simp [hm]

/-- Witness for C9 at the initial state. -/
theorem claim9_witness :
    0 ≤ getLevel1Progress (createObstacleState 0) ∧
      getLevel1Progress (createObstacleState 0) ≤ 1 :=
  (claim9_level1Progress (createObstacleState 0) (by norm_num [createObstacleState])
    (by norm_num [createObstacleState])).1

/-- C10: `spawnObstacles` never mutates the `ObstacleState` object it was
given: in the heap embedding (where every source assignment is a write to the
spread copy), the caller's slot is returned unchanged on both the
major-level-1 and major-level-2 paths; all updates appear only in the fresh
`copy` returned as `newState`. -/
theorem claim10_no_argument_mutation (s : ObstacleState)
    (delta currentSpeed : ℚ) (r : Rand) :
    (spawnObstaclesH s delta currentSpeed r).2.1.orig = s := by
  simp only [spawnObstaclesH, spawnLevel2H, spawnLevel1H]
  split_ifs <;> rfl

/-- C5: `updateObstacles` reports a collision exactly when some cube of the
tick, after its depth advancement, lies in the depth band `(2, 4)` within
lateral distance `0.8` and vertical distance `1.2` of the ship; and the
collision check influences neither the surviving cubes nor the score events
(both are independent of the ship position). -/
theorem claim5_collision (cubes : List Marker) (t : TickIn) :
    ((updateObstacles cubes t).2.2 = true ↔
      ∃ m ∈ cubes,
        2 < m.z + t.delta * t.speed * 15 ∧ m.z + t.delta * t.speed * 15 < 4 ∧
          |m.x - t.shipX| < 0.8 ∧ |m.y - t.shipY| < 1.2) ∧
      ∀ sx sy : ℚ,
        (updateObstacles cubes { t with shipX := sx, shipY := sy }).1 =
            (updateObstacles cubes t).1 ∧
          (updateObstacles cubes { t with shipX := sx, shipY := sy }).2.1 =
            (updateObstacles cubes t).2.1 :=
  ⟨updateObstacles_collided_iff cubes t,
   fun sx sy => updateObstacles_ship_frame cubes t sx sy⟩

/-- Witness for C5: a cube dead ahead of the ship at depth 3.5 collides
(Scenario E of the specification). -/
theorem claim5_witness :
    (updateObstacles [(⟨0, 0, 0.5, 3.5, 0, false, false⟩ : Marker)]
      (⟨0, 0.5, 0, 0⟩ : TickIn)).2.2 = true := by
  rw [(claim5_collision [(⟨0, 0, 0.5, 3.5, 0, false, false⟩ : Marker)]
    (⟨0, 0.5, 0, 0⟩ : TickIn)).1]
  refine ⟨_, List.mem_singleton_self _, ?_⟩
  norm_num

theorem reach_stateInv (s : ObstacleState) (h : Reach s) : StateInv s := by
  induction h with
  | init t =>
    exact ⟨by norm_num [createObstacleState], by norm_num [createObstacleState],
      fun _ => by norm_num [createObstacleState]⟩
  | step s delta speed r hr hd hv hrand ih =>
    exact stateInv_step s delta speed r ih hd hv

/-- C6 counterexample: a reachable state (14 explicit ticks with non-negative
deltaTime and speed) whose `funnelProgress` is 2, outside [0, 1]: the victory
tick sets `majorLevel = 3` but leaves `funnelProgress = phaseDistance / 55`,
which exceeds 1 when the final tick overshoots the funnel end. -/
theorem claim6_counterexample :
    Reach cexState ∧
      ¬ (0 ≤ cexState.funnelProgress ∧ cexState.funnelProgress ≤ 1) :=
  ⟨reach_foldl cexTicks _ (Reach.init 0) (by norm_num [cexTicks]),
   by rw [cexState_eq]; norm_num⟩

/-- C6 (amended): in every reachable state whose `majorLevel` is not 3,
`funnelProgress` lies in [0, 1]; only the victory tick (which sets
`majorLevel = 3`) can leave `funnelProgress` above 1. -/
theorem claim6_amended (s : ObstacleState) (h : Reach s)
    (h3 : s.majorLevel ≠ 3) : 0 ≤ s.funnelProgress ∧ s.funnelProgress ≤ 1 :=
  (reach_stateInv s h).2.2 h3

/-- Witness for C6 at the initial state. -/
theorem claim6_witness :
    0 ≤ (createObstacleState 0).funnelProgress ∧
      (createObstacleState 0).funnelProgress ≤ 1 :=
  claim6_amended (createObstacleState 0) (Reach.init 0)
    (by norm_num [createObstacleState])

/-- Evaluation of one tick on a majorLevel-3 state: the tick runs the
major-level-1 funnel logic, increments `level` to 8, flips the phase to
normal, and resets `majorLevel` to 2. -/
theorem claim1_cex_eval1 :
    (spawnObstacles (⟨7, Phase.funnel, 0, 0, 60, 2, 3, 1610⟩ : ObstacleState)
        1 0 rand0).2.1 =
      (⟨8, Phase.normal, 60, 63, 60, 0, 2, 0⟩ : ObstacleState) := by
  norm_num +decide [spawnObstacles, spawnObstaclesH, spawnLevel1H,
    spawnLevel2H, getLevelSpeed, getLevelColor, randomColor, rand0,
    LEVEL_DISTANCE, FUNNEL_DISTANCE, SPAWN_INTERVAL, FUNNEL_SPAWN_INTERVAL,
    LEVEL2_SPAWN_INTERVAL, LEVEL2_DISTANCE, LEVEL2_FUNNEL_DISTANCE,
    LEVEL2_FUNNEL_SPAWN_INTERVAL]

/-- Evaluation of one tick on a majorLevel-3 state in the normal phase with
a due spawn threshold: the tick spawns a marker. -/
theorem claim1_cex_eval2 :
    (spawnObstacles (⟨1, Phase.normal, 0, 0, 20, 0, 3, 0⟩ : ObstacleState)
        0 1 rand0).1 =
      [createObstacle (-8) (getLevelColor 1)] := by
  norm_num +decide [spawnObstacles, spawnObstaclesH, spawnLevel1H,
    spawnLevel2H, rand0, LEVEL_DISTANCE, FUNNEL_DISTANCE, SPAWN_INTERVAL,
    FUNNEL_SPAWN_INTERVAL, LEVEL2_SPAWN_INTERVAL, LEVEL2_DISTANCE,
    LEVEL2_FUNNEL_DISTANCE, LEVEL2_FUNNEL_SPAWN_INTERVAL]

/-- C1 counterexample: `spawnObstacles` does not treat `majorLevel = 3` as
terminal.  A state with `majorLevel = 3` is not guarded: one further tick
changes `level`, `phase` and even `majorLevel` (back to 2), and a
majorLevel-3 state in the normal phase spawns a marker. -/
theorem claim1_counterexample :
    ((⟨7, Phase.funnel, 0, 0, 60, 2, 3, 1610⟩ : ObstacleState).majorLevel = 3 ∧
      (spawnObstacles (⟨7, Phase.funnel, 0, 0, 60, 2, 3, 1610⟩ : ObstacleState)
          1 0 rand0).2.1.level ≠
        (⟨7, Phase.funnel, 0, 0, 60, 2, 3, 1610⟩ : ObstacleState).level ∧
      (spawnObstacles (⟨7, Phase.funnel, 0, 0, 60, 2, 3, 1610⟩ : ObstacleState)
          1 0 rand0).2.1.phase ≠
        (⟨7, Phase.funnel, 0, 0, 60, 2, 3, 1610⟩ : ObstacleState).phase ∧
      (spawnObstacles (⟨7, Phase.funnel, 0, 0, 60, 2, 3, 1610⟩ : ObstacleState)
          1 0 rand0).2.1.majorLevel ≠ 3) ∧
    ((⟨1, Phase.normal, 0, 0, 20, 0, 3, 0⟩ : ObstacleState).majorLevel = 3 ∧
      (spawnObstacles (⟨1, Phase.normal, 0, 0, 20, 0, 3, 0⟩ : ObstacleState)
          0 1 rand0).1 ≠ []) := by
  refine ⟨⟨rfl, ?_, ?_, ?_⟩, rfl, ?_⟩
  · rw [claim1_cex_eval1]; norm_num
  · rw [claim1_cex_eval1]; simp
  · rw [claim1_cex_eval1]; norm_num
  · rw [claim1_cex_eval2]; simp

/-- C1 (amended): when the state has `majorLevel = 2`, `phase = funnel`, and
phase-local distance after integration at least 55, the tick sets
`majorLevel = 3` and spawns nothing; but `spawnObstacles` has no guard for
`majorLevel = 3`: any state with `majorLevel ≠ 2` (including 3) runs the
major-level-1 logic on the next tick, so terminal behavior must be enforced
by the host, which observes `majorLevel = 3`. -/
theorem claim1_amended :
    (∀ (s : ObstacleState) (delta speed : ℚ) (r : Rand),
        s.majorLevel = 2 → s.phase = Phase.funnel →
        55 ≤ s.distance + delta * speed * 15 - s.phaseStartDistance →
        (spawnObstacles s delta speed r).2.1.majorLevel = 3 ∧
          (spawnObstacles s delta speed r).1 = []) ∧
    ∀ (s : ObstacleState) (delta speed : ℚ) (r : Rand),
        s.majorLevel ≠ 2 →
        spawnObstaclesH s delta speed r =
          spawnLevel1H s (delta * speed * 15) speed r := by
  constructor
  · intro s delta speed r hm hph h55
    have hF : LEVEL2_FUNNEL_DISTANCE ≤
        s.distance + delta * speed * 15 - s.phaseStartDistance := by
      simpa [LEVEL2_FUNNEL_DISTANCE] using h55
    have hsp : spawnObstacles s delta speed r =
        ((spawnObstaclesH s delta speed r).1,
          (spawnObstaclesH s delta speed r).2.1.copy,
          (spawnObstaclesH s delta speed r).2.2) := rfl
    rw [hsp, spawnObstaclesH_eq_level2 s delta speed r hm,
      spawnLevel2H_funnel_victory s _ r hph hF]
    exact ⟨rfl, rfl⟩
  · intro s delta speed r hm
    exact spawnObstaclesH_eq_level1 s delta speed r hm

/-- Witness for C1 at a concrete level-2 funnel-completion tick. -/
theorem claim1_witness :
    (spawnObstacles (⟨7, Phase.funnel, 0, 0, 55, 1, 2, 1555⟩ : ObstacleState)
        0 0 rand0).2.1.majorLevel = 3 :=
  (claim1_amended.1 ⟨7, Phase.funnel, 0, 0, 55, 1, 2, 1555⟩ 0 0 rand0 rfl rfl
    (by norm_num)).1

/-- C4: across any sequence of ticks, the score events of a given marker in
the cube list (identified by its id, unique in the list) are exactly those of
its individual trajectory; each trajectory emits at most one event; a
fresh marker (`passed = false`) emits exactly one event precisely when some
tick advances it past the scoring plane while it is live, with value 20 for
high-tier markers and 10 otherwise; and a survivor never resets its `passed`
flag (so `passed` transitions false → true at most once). -/
theorem claim4_at_most_once_scoring :
    (∀ (ts : List TickIn) (pre post : List Marker) (m : Marker),
        m.id ∉ pre.map Marker.id → m.id ∉ post.map Marker.id →
        eventsFor m.id (runTicks (pre ++ m :: post) ts).2 = runMarker m ts) ∧
    (∀ (m : Marker) (ts : List TickIn), (runMarker m ts).length ≤ 1) ∧
    (∀ (m : Marker) (ts : List TickIn), m.passed = false →
        runMarker m ts =
          if crossesScoringPlane m ts then [(m.id, if m.high then 20 else 10)]
          else []) ∧
    (∀ (t : TickIn) (m m' : Marker), (stepMarker t m).1 = some m' →
        m.passed = true → m'.passed = true) :=
  ⟨eventsFor_run, runMarker_length, runMarker_eq_crosses, stepMarker_passed⟩

/-- Witness for C4: a single fresh ground marker crossing the scoring plane
in one tick emits exactly the event (id 0, 10 points). -/
theorem claim4_witness :
    eventsFor 0 (runTicks [(⟨0, 0, 0.5, -40, 0, false, false⟩ : Marker)]
        [(⟨0, 0, 3, 1⟩ : TickIn)]).2 = [(0, 10)] := by
  have h1 := claim4_at_most_once_scoring.1 [(⟨0, 0, 3, 1⟩ : TickIn)] [] []
    (⟨0, 0, 0.5, -40, 0, false, false⟩ : Marker) (by simp) (by simp)
  have h2 := claim4_at_most_once_scoring.2.2.1
    (⟨0, 0, 0.5, -40, 0, false, false⟩ : Marker) [(⟨0, 0, 3, 1⟩ : TickIn)] rfl
  have hcr : crossesScoringPlane (⟨0, 0, 0.5, -40, 0, false, false⟩ : Marker)
      [(⟨0, 0, 3, 1⟩ : TickIn)] = true := by
    norm_num [crossesScoringPlane]
  rw [List.nil_append] at h1
  rw [h1, h2, hcr]
  norm_num

end Synthrun
